import Mathlib

/-!
Verification of the vtctl streaming command-execution protocol exercised by
`go/vt/vtctl/vtctlclienttest/client.go`.  The fixture data (the tablet record,
the command lines, the expected rendered log line and the expected error
substrings) are embedded from that source file.  The protocol core it
exercises (topology store lookup, command executor, streaming session,
client stream handle) is not part of the visible sources, so those
components are modelled from the specification, as marked on each definition.
-/

namespace Vtctl

/-- Boolean test that `pat` occurs at the head of `s`. -/
def leadsWith {α : Type} [DecidableEq α] : List α → List α → Bool
  | [], _ => true
  | _ :: _, [] => false
  | a :: as, b :: bs => decide (a = b) && leadsWith as bs

/-- Boolean test that `pat` occurs contiguously somewhere inside `s`. -/
def containsList {α : Type} [DecidableEq α] (pat : List α) : List α → Bool
  | [] => pat.isEmpty
  | b :: bs => leadsWith pat (b :: bs) || containsList pat bs

/-- `strContains s pat` holds when `pat` is a contiguous substring of `s`;
this is the check callers of the protocol perform on error texts. -/
def strContains (s pat : String) : Bool :=
  containsList pat.toList s.toList

/-- A tablet alias, `(cell, numeric id)`, as in the fixture of `client.go`. -/
structure TabletAlias where
  cell : String
  uid : Nat
  deriving DecidableEq, Repr

/-- Tablet types; the fixture uses `PRIMARY`. -/
inductive TabletType where
  | primary
  | replica
  | rdonly
  deriving DecidableEq, Repr

/-- A tablet record, with the fields the fixture in `client.go` populates:
alias, hostname, mysql hostname, port map, the dedicated `MysqlPort` field,
the primary-term-start timestamp (seconds and nanoseconds, as produced by
`logutil.TimeToProto`), tags, keyspace, shard and type. -/
structure Tablet where
  talias : TabletAlias
  hostname : String
  mysqlHostname : String
  portMap : List (String × Nat)
  mysqlPort : Nat
  primaryTermStartSeconds : Nat
  primaryTermStartNanos : Nat
  tags : List (String × String)
  keyspace : String
  shard : String
  ttype : TabletType
  deriving DecidableEq, Repr

/-- The fixture tablet of `client.go`: alias `(cell1, uid=1)`, hostname
`localhost` with vt port `3333` in the port map, mysql hostname `localhost`
with `MysqlPort = 3334`, primary term start `1970-01-01 01:01:01.000000001Z`
(3661 seconds and 1 nanosecond past the epoch), tag `tag: value`, keyspace
`test_keyspace`, no shard, type primary. -/
def fixtureTablet : Tablet :=
  { talias := { cell := "cell1", uid := 1 }
    hostname := "localhost"
    mysqlHostname := "localhost"
    portMap := [("vt", 3333)]
    mysqlPort := 3334
    primaryTermStartSeconds := 3661
    primaryTermStartNanos := 1
    tags := [("tag", "value")]
    keyspace := "test_keyspace"
    shard := ""
    ttype := TabletType.primary }

/-- Left-pad the decimal representation of `n` with zeros to width `w`. -/
def zeroPad (w : Nat) (n : Nat) : String :=
  let s := toString n
  String.mk (List.replicate (w - s.length) '0') ++ s

/-- Civil date (year, month, day) from a count of days since 1970-01-01,
using the standard era-based conversion on the proleptic Gregorian
calendar. -/
def civilFromDays (days : Nat) : Nat × Nat × Nat :=
  let z := days + 719468
  let era := z / 146097
  let doe := z % 146097
  let yoe := (doe - doe / 1460 + doe / 36524 - doe / 146096) / 365
  let y := yoe + era * 400
  let doy := doe - (365 * yoe + yoe / 4 - yoe / 100)
  let mp := (5 * doy + 2) / 153
  let d := doy - (153 * mp + 2) / 5 + 1
  let m := if mp < 10 then mp + 3 else mp - 9
  (if m ≤ 2 then y + 1 else y, m, d)

/-- Modelled from the spec: the `RFC3339 UTC timestamp` field of the Log Line
rendered format (§6).  RFC3339 without a fractional-second part: whole
seconds since the epoch are rendered as `YYYY-MM-DDThh:mm:ssZ`; the
nanosecond component of the record is not rendered (the §6 example renders
a timestamp with no fractional digits).  The rendering code itself is not
among the visible sources. -/
def rfc3339OfEpoch (secs : Nat) : String :=
  let days := secs / 86400
  let rem := secs % 86400
  let ymd := civilFromDays days
  zeroPad 4 ymd.1 ++ "-" ++ zeroPad 2 ymd.2.1 ++ "-" ++ zeroPad 2 ymd.2.2 ++
    "T" ++ zeroPad 2 (rem / 3600) ++ ":" ++ zeroPad 2 (rem % 3600 / 60) ++
    ":" ++ zeroPad 2 (rem % 60) ++ "Z"

/-- Lowercase rendering of the tablet type, as in the §6 format. -/
def typeString : TabletType → String
  | TabletType.primary => "primary"
  | TabletType.replica => "replica"
  | TabletType.rdonly => "rdonly"

/-- `<cell>-<10-digit zero-padded uid>`, the alias rendering of §6. -/
def aliasString (a : TabletAlias) : String :=
  a.cell ++ "-" ++ zeroPad 10 a.uid

/-- The shard field renders as `<null>` when the record has no shard. -/
def shardString (s : String) : String :=
  if s = "" then "<null>" else s

/-- The tag map rendering of §6: `[<key>: "<value>", ...]`. -/
def tagsString (tags : List (String × String)) : String :=
  "[" ++ String.intercalate ", "
    (tags.map fun kv => kv.1 ++ ": \"" ++ kv.2 ++ "\"") ++ "]"

/-- The vt port of a record: the entry of the port map keyed `vt`. -/
def vtPort (t : Tablet) : Nat :=
  (t.portMap.lookup "vt").getD 0

/-- Modelled from the spec: the space-separated fields of the §6 Log Line
rendered format, in order: alias, keyspace, shard-or-null, lowercase type,
`<hostname>:<vt-port>` (vt port from the port map), `<mysql-hostname>:<mysql-port>`
(mysql port from the dedicated field), tag map, RFC3339 UTC timestamp.
The rendering code itself is not among the visible sources. -/
def renderFields (t : Tablet) : List String :=
  [aliasString t.talias,
   t.keyspace,
   shardString t.shard,
   typeString t.ttype,
   t.hostname ++ ":" ++ toString (vtPort t),
   t.mysqlHostname ++ ":" ++ toString t.mysqlPort,
   tagsString t.tags,
   rfc3339OfEpoch t.primaryTermStartSeconds]

/-- Modelled from the spec: the §6 Log Line rendered form, a single line of
text terminated by one newline. -/
def renderLogLine (t : Tablet) : String :=
  String.intercalate " " (renderFields t) ++ "\n"

/-- The exact log line that `client.go` expects for the fixture tablet. -/
def expectedLine : String :=
  "cell1-0000000001 test_keyspace <null> primary localhost:3333 localhost:3334 [tag: \"value\"] 1970-01-01T01:01:01Z\n"

/-- Modelled from the spec: the Topology Store, holding tablet records keyed
by cell (§2, §6).  The store implementation (memorytopo) is not among the
visible sources. -/
def Store : Type := List (String × List Tablet)

/-- The records registered under `cell` (empty when the cell is unknown). -/
def cellRecords (store : Store) (cell : String) : List Tablet :=
  (List.lookup cell store).getD []

/-- The store produced by `client.go`: the topo server is created with
`cell1` and the fixture tablet is created there; no other cell exists. -/
def fixtureStore : Store := [("cell1", [fixtureTablet])]

/-- Modelled from the spec: `ListTabletRecords(cell)` of the Topology Store
interface (§6) — returns the records of the cell, and fails with a
not-found-class error whose message contains `node doesn't exist` when the
cell has no records.  The store implementation is not among the visible
sources. -/
def listTabletRecords (store : Store) (cell : String) :
    Except String (List Tablet) :=
  match cellRecords store cell with
  | [] => Except.error ("node doesn't exist: " ++ cell)
  | t :: ts => Except.ok (t :: ts)

/-- Outcome of one Command Executor invocation (§4.1): a clean run with its
log lines, an intentionally raised command error, or an unrecovered fault. -/
inductive ExecOutcome where
  | clean (lines : List String)
  | cmdError (msg : String)
  | fault (msg : String)
  deriving DecidableEq, Repr

/-- Modelled from the spec: the Command Executor (§4.1).  `ListAllTablets
<cell>` lists the cell's records, rendering one Log Line per record in store
order, and surfaces the store's not-found error as a command error; the
designated deliberately failing command `Panic` raises an unrecovered fault
whose message contains `this command panics on purpose`; list-style commands
are read-only.  The executor implementation is not among the visible
sources. -/
def execute (store : Store) (cmd : List String) : ExecOutcome :=
  if cmd = ["Panic"] then
    ExecOutcome.fault "this command panics on purpose"
  else
    match cmd with
    | [c, cell] =>
      if c = "ListAllTablets" then
        match listTabletRecords store cell with
        | Except.ok ts => ExecOutcome.clean (ts.map renderLogLine)
        | Except.error m => ExecOutcome.cmdError m
      else ExecOutcome.cmdError ("unknown command: " ++ c)
    | _ => ExecOutcome.cmdError "unknown command"

/-- Terminal status of a stream, as observed by the consumer (§4.2, §4.3):
clean end-of-stream, a command error, a fault converted at the session
boundary, a deadline-exceeded error, or a caller-side cancellation error. -/
inductive Terminal where
  | clean
  | cmdError (msg : String)
  | fault (msg : String)
  | deadlineExceeded
  | cancelled
  deriving DecidableEq, Repr

/-- Modelled from the spec: the stable wrapping applied at the Streaming
Session recovery boundary (§4.2) — the fault's message is wrapped with the
stable marker `uncaught vtctl panic` concatenated with the original fault
text, so both substrings are present.  The session implementation is not
among the visible sources. -/
def panicWrap (m : String) : String :=
  "uncaught vtctl panic: " ++ m

/-- Modelled from the spec: the Streaming Session (§4.2).  Runs the Command
Executor under the recovery boundary, keeps its log lines in production
order, and produces the stream content: the ordered lines plus exactly one
terminal status, with faults converted to a `Terminal.fault` carrying the
wrapped message.  The session implementation is not among the visible
sources. -/
def runSession (store : Store) (cmd : List String) :
    List String × Terminal :=
  match execute store cmd with
  | ExecOutcome.clean ls => (ls, Terminal.clean)
  | ExecOutcome.cmdError m => ([], Terminal.cmdError m)
  | ExecOutcome.fault m => ([], Terminal.fault (panicWrap m))

/-- The client-side stream handle (§4.3): the Log Lines not yet received and
the terminal status that follows them. -/
structure StreamHandle where
  pending : List String
  outcome : Terminal
  deriving DecidableEq, Repr

/-- Result of one `Recv` call (§9: a tagged variant per receive — either a
Log Line with more to come, or a terminal status): a Log Line, the dedicated
end-of-stream marker (distinct from any error), or an error. -/
inductive RecvResult where
  | line (s : String)
  | eof
  | recvError (msg : String)
  deriving DecidableEq, Repr

/-- The signal `Recv` returns once the stream is terminal: the end-of-stream
marker for a clean termination, the error text otherwise. -/
def terminalSignal : Terminal → RecvResult
  | Terminal.clean => RecvResult.eof
  | Terminal.cmdError m => RecvResult.recvError m
  | Terminal.fault m => RecvResult.recvError m
  | Terminal.deadlineExceeded => RecvResult.recvError "context deadline exceeded"
  | Terminal.cancelled => RecvResult.recvError "context canceled"

/-- Modelled from the spec: the Client Stub's `Recv` (§4.3) — yields the
next pending Log Line, in order; once no lines remain, returns the terminal
signal and leaves the handle unchanged, so a terminal read is repeatable.
The client stub implementation is not among the visible sources. -/
def recv (h : StreamHandle) : RecvResult × StreamHandle :=
  match h with
  | ⟨l :: ls, t⟩ => (RecvResult.line l, ⟨ls, t⟩)
  | ⟨[], t⟩ => (terminalSignal t, ⟨[], t⟩)

/-- Modelled from the spec: `ExecuteVtctlCommand` of the Client Stub (§4.3)
— opens a Streaming Session for the command and returns the stream handle.
The client stub implementation is not among the visible sources. -/
def executeVtctlCommand (store : Store) (cmd : List String) : StreamHandle :=
  { pending := (runSession store cmd).1, outcome := (runSession store cmd).2 }

/-- The handle state after `n` further `Recv` calls. -/
def recvStateN (h : StreamHandle) : Nat → StreamHandle
  | 0 => h
  | n + 1 => recvStateN (recv h).2 n

/-- Read up to `fuel` Log Lines off a handle, stopping at the first
non-line result: the sequence of Log Lines a consumer observes. -/
def readAll : Nat → StreamHandle → List String
  | 0, _ => []
  | n + 1, h =>
    match recv h with
    | (RecvResult.line l, h2) => l :: readAll n h2
    | _ => []

/-- Modelled from the spec: caller-side context cancellation (§4.3) — once
the caller cancels, the underlying session stops producing Log Lines and
`Recv` returns a cancellation error; any undelivered lines are dropped.
The cancellation plumbing is not among the visible sources. -/
def cancelStream (_h : StreamHandle) : StreamHandle :=
  { pending := [], outcome := Terminal.cancelled }

/-- Modelled from the spec: the server serving a sequence of requests
(§7) — every request is handled by its own session against the shared
store; a fault in one request is converted at its session boundary and the
process keeps serving the following requests.  The server loop is not among
the visible sources. -/
def serveAll (store : Store) (cmds : List (List String)) : List StreamHandle :=
  cmds.map (executeVtctlCommand store)

/-- The states of the Streaming Session state machine (§4.2):
`Idle → Running → {Clean, CommandError, Fault, DeadlineExceeded}`. -/
inductive Phase where
  | idle
  | running
  | clean
  | cmdError
  | fault
  | deadlineExceeded
  deriving DecidableEq, Repr

/-- The terminal states of the session state machine. -/
def Phase.isTerminal : Phase → Bool
  | Phase.idle => false
  | Phase.running => false
  | _ => true

/-- Labels on session transitions: starting the run, emitting one Log Line,
or finishing in a terminal state. -/
inductive SLabel where
  | start
  | emit (line : String)
  | finish (p : Phase)
  deriving DecidableEq, Repr

/-- Modelled from the spec: the transition relation of the Streaming Session
state machine (§4.2) — `Idle` starts into `Running`; Log Lines are emitted
from `Running`; `Running` finishes into one of the terminal states.  The
session implementation is not among the visible sources. -/
inductive SessionStep : Phase → SLabel → Phase → Prop
  | start : SessionStep Phase.idle SLabel.start Phase.running
  | emit (l : String) : SessionStep Phase.running (SLabel.emit l) Phase.running
  | finish (p : Phase) (h : p.isTerminal = true) :
      SessionStep Phase.running (SLabel.finish p) p

/-- A path in the session state machine: a sequence of labelled steps. -/
inductive SessionPath : Phase → List SLabel → Phase → Prop
  | nil (p : Phase) : SessionPath p [] p
  | cons {p p2 p3 : Phase} {l : SLabel} {ls : List SLabel} :
      SessionStep p l p2 → SessionPath p2 ls p3 → SessionPath p (l :: ls) p3

/-- A second tablet in `cell1`, used to exercise a cell with more than one
record: same fields as the fixture tablet, uid 2. -/
def fixtureTablet2 : Tablet :=
  { fixtureTablet with talias := { cell := "cell1", uid := 2 } }

/-- A store whose `cell1` holds two records, in a fixed registration order. -/
def twoTabletStore : Store := [("cell1", [fixtureTablet, fixtureTablet2])]

/- ------------------------------------------------------------------ -/
/- Helper lemmas shared by the claim theorems.                         -/
/- ------------------------------------------------------------------ -/

theorem leadsWith_append {α : Type} [DecidableEq α] (l r : List α) :
    leadsWith l (l ++ r) = true := by
  induction l with
  | nil => rfl
  | cons a as ih => simp [leadsWith, ih]

theorem containsList_of_leadsWith {α : Type} [DecidableEq α]
    (pat s : List α) (h : leadsWith pat s = true) :
    containsList pat s = true := by
  cases s with
  | nil =>
    cases pat with
    | nil => rfl
    | cons a as => simp [leadsWith] at h
  | cons b bs => simp [containsList, h]

theorem strContains_append_left (p r : String) :
    strContains (p ++ r) p = true := by
  have hdata : (p ++ r).toList = p.toList ++ r.toList := rfl
  unfold strContains
  rw [hdata]
  exact containsList_of_leadsWith _ _ (leadsWith_append _ _)

theorem recvStateN_terminal (t : Terminal) (n : Nat) :
    recvStateN ⟨[], t⟩ n = ⟨[], t⟩ := by
  induction n with
  | zero => rfl
  | succ n ih => simpa [recvStateN, recv] using ih

theorem terminalSignal_ne_line (t : Terminal) (l : String) :
    terminalSignal t ≠ RecvResult.line l := by
  cases t <;> simp [terminalSignal]

theorem readAll_pending (ls : List String) (t : Terminal) (n : Nat)
    (hn : ls.length ≤ n) : readAll n ⟨ls, t⟩ = ls := by
  induction ls generalizing n with
  | nil =>
    cases n with
    | zero => rfl
    | succ n => cases t <;> simp [readAll, recv, terminalSignal]
  | cons l ls ih =>
    cases n with
    | zero => exact absurd hn (by simp)
    | succ n =>
      have : ls.length ≤ n := Nat.le_of_succ_le_succ hn
      simp [readAll, recv, ih _ this]

theorem exec_list_cell1 (store : Store)
    (h : cellRecords store "cell1" = [fixtureTablet]) :
    executeVtctlCommand store ["ListAllTablets", "cell1"] =
      { pending := [expectedLine], outcome := Terminal.clean } := by
  have hl : listTabletRecords store "cell1" = Except.ok [fixtureTablet] := by
    unfold listTabletRecords
    rw [h]
  simp [executeVtctlCommand, runSession, execute, hl]
  decide

theorem renderLogLine_nanos (t : Tablet) (ns : Nat) :
    renderLogLine { t with primaryTermStartNanos := ns } = renderLogLine t := by
  cases t
  rfl

theorem exec_list_empty (store : Store) (cell : String)
    (h : cellRecords store cell = []) :
    executeVtctlCommand store ["ListAllTablets", cell] =
      { pending := [],
        outcome := Terminal.cmdError ("node doesn't exist: " ++ cell) } := by
  have hl : listTabletRecords store cell =
      Except.error ("node doesn't exist: " ++ cell) := by
    unfold listTabletRecords
    rw [h]
  simp [executeVtctlCommand, runSession, execute, hl]

/- ------------------------------------------------------------------ -/
/- Claim theorems.                                                     -/
/- ------------------------------------------------------------------ -/

/-- C1: for every store whose cell `cell1` holds exactly the fixture Tablet
Record, listing `cell1` yields a stream whose first `Recv` returns exactly
the rendered fixture line, whose second `Recv` returns the dedicated
end-of-stream marker, and that marker is distinct from every error. -/
theorem list_one_tablet_stream (store : Store)
    (h : cellRecords store "cell1" = [fixtureTablet]) :
    (recv (executeVtctlCommand store ["ListAllTablets", "cell1"])).1 =
        RecvResult.line expectedLine ∧
    (recv (recv (executeVtctlCommand store ["ListAllTablets", "cell1"])).2).1 =
        RecvResult.eof ∧
    ∀ m : String, (RecvResult.eof : RecvResult) ≠ RecvResult.recvError m := by
  rw [exec_list_cell1 store h]
  exact ⟨rfl, rfl, fun m hc => RecvResult.noConfusion hc⟩

/-- Witness for C1 at the concrete fixture store. -/
theorem list_one_tablet_stream_witness :
    (recv (executeVtctlCommand fixtureStore ["ListAllTablets", "cell1"])).1 =
      RecvResult.line expectedLine :=
  (list_one_tablet_stream fixtureStore rfl).1

/-- C2: for every store, executing the designated deliberately failing
command `Panic` terminates the stream with an error whose text contains both
the original fault text `this command panics on purpose` and the stable
wrapping marker `uncaught vtctl panic`. -/
theorem panic_error_substrings (store : Store) :
    ∃ e : String,
      (recv (executeVtctlCommand store ["Panic"])).1 = RecvResult.recvError e ∧
      strContains e "this command panics on purpose" = true ∧
      strContains e "uncaught vtctl panic" = true :=
  ⟨"uncaught vtctl panic: this command panics on purpose", rfl, rfl, rfl⟩

/-- Witness for C2 at the concrete fixture store. -/
theorem panic_error_substrings_witness :
    ∃ e : String,
      (recv (executeVtctlCommand fixtureStore ["Panic"])).1 =
        RecvResult.recvError e ∧
      strContains e "this command panics on purpose" = true ∧
      strContains e "uncaught vtctl panic" = true :=
  panic_error_substrings fixtureStore

/-- C3: for every store and every cell with no registered tablet records,
listing that cell delivers zero Log Lines and terminates with a
`CommandError` whose text contains `node doesn't exist`. -/
theorem empty_cell_error (store : Store) (cell : String)
    (h : cellRecords store cell = []) :
    (executeVtctlCommand store ["ListAllTablets", cell]).pending = [] ∧
    ∃ m : String,
      (executeVtctlCommand store ["ListAllTablets", cell]).outcome =
        Terminal.cmdError m ∧
      (recv (executeVtctlCommand store ["ListAllTablets", cell])).1 =
        RecvResult.recvError m ∧
      strContains m "node doesn't exist" = true := by
  rw [exec_list_empty store cell h]
  refine ⟨rfl, "node doesn't exist: " ++ cell, rfl, rfl, ?_⟩
  exact strContains_append_left "node doesn't exist" (": " ++ cell)

/-- Witness for C3: listing `cell2` against the fixture store, where only
`cell1` exists. -/
theorem empty_cell_error_witness :
    (executeVtctlCommand fixtureStore ["ListAllTablets", "cell2"]).pending =
      [] ∧
    ∃ m : String,
      (executeVtctlCommand fixtureStore ["ListAllTablets", "cell2"]).outcome =
        Terminal.cmdError m ∧
      (recv (executeVtctlCommand fixtureStore ["ListAllTablets", "cell2"])).1 =
        RecvResult.recvError m ∧
      strContains m "node doesn't exist" = true :=
  empty_cell_error fixtureStore "cell2" rfl

/-- C4: once a stream handle is terminal (no pending Log Lines), every
further `Recv`, after any number of intervening `Recv` calls, returns the
same terminal signal and leaves the handle unchanged — the terminal read is
idempotent, for every terminal status. -/
theorem recv_terminal_idempotent (h : StreamHandle) (hterm : h.pending = [])
    (n : Nat) :
    recv (recvStateN h n) = (terminalSignal h.outcome, h) := by
  obtain ⟨p, t⟩ := h
  cases hterm
  rw [recvStateN_terminal]
  rfl

/-- Witness for C4: two reads past the end of a cleanly terminated stream. -/
theorem recv_terminal_idempotent_witness :
    recv (recvStateN ⟨[], Terminal.clean⟩ 2) =
      (terminalSignal Terminal.clean, ⟨[], Terminal.clean⟩) :=
  recv_terminal_idempotent ⟨[], Terminal.clean⟩ rfl 2

/-- C5: the Streaming Session state machine: no transition leaves a terminal
state; Log Lines are emitted only from the `Running` state; no non-empty
path starts at a terminal state; and on the consumer side, once a stream has
terminated no further `Recv` ever returns a Log Line. -/
theorem session_state_machine :
    (∀ (p : Phase) (l : SLabel) (p2 : Phase),
      SessionStep p l p2 → p.isTerminal = false) ∧
    (∀ (p p2 : Phase) (s : String),
      SessionStep p (SLabel.emit s) p2 → p = Phase.running ∧ p2 = Phase.running) ∧
    (∀ (p : Phase) (ls : List SLabel) (p2 : Phase),
      SessionPath p ls p2 → p.isTerminal = true → ls = []) ∧
    (∀ (h : StreamHandle) (n : Nat) (l : String), h.pending = [] →
      (recv (recvStateN h n)).1 ≠ RecvResult.line l) := by
  refine ⟨?_, ?_, ?_, ?_⟩
  · intro p l p2 hs
    cases hs with
    | start => rfl
    | emit l => rfl
    | finish p hp => rfl
  · intro p p2 s hs
    cases hs
    exact ⟨rfl, rfl⟩
  · intro p ls p2 hpath hterm
    cases hpath with
    | nil => rfl
    | cons hs _ => cases hs <;> simp [Phase.isTerminal] at hterm
  · intro h n l hterm
    obtain ⟨p, t⟩ := h
    cases hterm
    rw [recvStateN_terminal]
    exact terminalSignal_ne_line t l

/-- Witness for C5: the start transition leaves a non-terminal state, and a
terminated clean stream never yields a further Log Line. -/
theorem session_state_machine_witness :
    Phase.isTerminal Phase.idle = false ∧
    (recv (recvStateN ⟨[], Terminal.clean⟩ 3)).1 ≠ RecvResult.line "x" :=
  ⟨session_state_machine.1 Phase.idle SLabel.start Phase.running
      SessionStep.start,
    session_state_machine.2.2.2 ⟨[], Terminal.clean⟩ 3 "x" rfl⟩

/-- C6: for every stream, reading it delivers exactly the Log Lines the
Command Executor produced, element for element and in the same order; and
two handles opened from the same unchanged store with the same command
deliver the same Log Lines. -/
theorem delivered_equals_produced (store : Store) (cmd : List String)
    (n : Nat) (hn : (runSession store cmd).1.length ≤ n) :
    readAll n (executeVtctlCommand store cmd) = (runSession store cmd).1 ∧
    ∀ h1 h2 : StreamHandle, h1 = executeVtctlCommand store cmd →
      h2 = executeVtctlCommand store cmd → readAll n h1 = readAll n h2 := by
  constructor
  · exact readAll_pending (runSession store cmd).1 (runSession store cmd).2 n hn
  · intro h1 h2 e1 e2
    rw [e1, e2]

/-- Witness for C6: a cell with two records delivers both rendered lines, in
store order. -/
theorem delivered_equals_produced_witness :
    readAll 5 (executeVtctlCommand twoTabletStore ["ListAllTablets", "cell1"]) =
      (runSession twoTabletStore ["ListAllTablets", "cell1"]).1 ∧
    (runSession twoTabletStore ["ListAllTablets", "cell1"]).1 =
      [renderLogLine fixtureTablet, renderLogLine fixtureTablet2] :=
  ⟨(delivered_equals_produced twoTabletStore ["ListAllTablets", "cell1"] 5
      (by decide)).1,
    by decide⟩

/-- C7: an unrecovered fault in one request does not stop the server: serving
`Panic` and then a list of `cell1` handles both requests through the same
total serving function; the `Panic` stream carries the wrapped fault error
with both substrings, and the subsequent list request is still served
correctly (the fixture line, then end-of-stream). -/
theorem fault_isolation (store : Store)
    (h : cellRecords store "cell1" = [fixtureTablet]) :
    serveAll store [["Panic"], ["ListAllTablets", "cell1"]] =
      [executeVtctlCommand store ["Panic"],
        executeVtctlCommand store ["ListAllTablets", "cell1"]] ∧
    (∃ e : String,
      (recv (executeVtctlCommand store ["Panic"])).1 = RecvResult.recvError e ∧
      strContains e "this command panics on purpose" = true ∧
      strContains e "uncaught vtctl panic" = true) ∧
    (recv (executeVtctlCommand store ["ListAllTablets", "cell1"])).1 =
      RecvResult.line expectedLine ∧
    (recv (recv (executeVtctlCommand store ["ListAllTablets", "cell1"])).2).1 =
      RecvResult.eof := by
  refine ⟨rfl,
    ⟨"uncaught vtctl panic: this command panics on purpose", rfl, rfl, rfl⟩,
    ?_, ?_⟩ <;> rw [exec_list_cell1 store h] <;> rfl

/-- Witness for C7 at the concrete fixture store. -/
theorem fault_isolation_witness :
    (recv (executeVtctlCommand fixtureStore ["ListAllTablets", "cell1"])).1 =
      RecvResult.line expectedLine :=
  (fault_isolation fixtureStore rfl).2.2.1

/-- C8: cancelling the caller context before the stream is terminal makes
the next `Recv` return a cancellation error, and after that point no `Recv`
ever delivers a Log Line. -/
theorem cancel_stops_stream (h : StreamHandle) (hrun : h.pending ≠ [])
    (n : Nat) (l : String) :
    (recv (cancelStream h)).1 = RecvResult.recvError "context canceled" ∧
    (recv (recvStateN (cancelStream h) n)).1 ≠ RecvResult.line l := by
  constructor
  · rfl
  · unfold cancelStream
    rw [recvStateN_terminal]
    exact terminalSignal_ne_line Terminal.cancelled l

/-- Witness for C8: cancelling a stream that still has a pending line. -/
theorem cancel_stops_stream_witness :
    (recv (cancelStream ⟨[expectedLine], Terminal.clean⟩)).1 =
        RecvResult.recvError "context canceled" ∧
    (recv (recvStateN (cancelStream ⟨[expectedLine], Terminal.clean⟩) 1)).1 ≠
        RecvResult.line "x" :=
  cancel_stops_stream ⟨[expectedLine], Terminal.clean⟩ (by decide) 1 "x"

/-- C9: the fixture record's primary-term-start has a nonzero sub-second
component (1 nanosecond), yet the rendered line carries the whole-second
timestamp `1970-01-01T01:01:01Z`; indeed the rendered line does not depend
on the nanosecond component at all. -/
theorem timestamp_truncated_to_seconds :
    fixtureTablet.primaryTermStartNanos = 1 ∧
    (∀ ns : Nat,
      renderLogLine { fixtureTablet with primaryTermStartNanos := ns } =
        expectedLine) ∧
    strContains expectedLine "1970-01-01T01:01:01Z" = true :=
  ⟨rfl, fun ns => (renderLogLine_nanos fixtureTablet ns).trans (by decide),
    by decide⟩

/-- Witness for C9 at a concrete nonzero nanosecond value. -/
theorem timestamp_truncated_to_seconds_witness :
    renderLogLine { fixtureTablet with primaryTermStartNanos := 123456789 } =
      expectedLine :=
  timestamp_truncated_to_seconds.2.1 123456789

/-- C10: the vt address port of the rendered line comes from the port map
entry keyed `vt` while the mysql address port comes from the dedicated
`MysqlPort` field: the fixture's port map has only the `vt` entry and no
`mysql` key, `MysqlPort` is 3334, and for arbitrary port values the two
rendered host:port fields are driven by exactly those two sources. -/
theorem ports_from_map_and_field :
    fixtureTablet.portMap = [("vt", 3333)] ∧
    List.lookup "mysql" fixtureTablet.portMap = none ∧
    fixtureTablet.mysqlPort = 3334 ∧
    (∀ p m : Nat,
      renderFields { fixtureTablet with portMap := [("vt", p)], mysqlPort := m } =
        ["cell1-0000000001", "test_keyspace", "<null>", "primary",
          "localhost:" ++ toString p, "localhost:" ++ toString m,
          "[tag: \"value\"]", "1970-01-01T01:01:01Z"]) ∧
    renderLogLine fixtureTablet = expectedLine :=
  ⟨rfl, rfl, rfl, fun p m => by
    show [aliasString fixtureTablet.talias, fixtureTablet.keyspace,
        shardString fixtureTablet.shard, typeString fixtureTablet.ttype,
        fixtureTablet.hostname ++ ":" ++ toString p,
        fixtureTablet.mysqlHostname ++ ":" ++ toString m,
        tagsString fixtureTablet.tags,
        rfc3339OfEpoch fixtureTablet.primaryTermStartSeconds] =
      ["cell1-0000000001", "test_keyspace", "<null>", "primary",
        "localhost:" ++ toString p, "localhost:" ++ toString m,
        "[tag: \"value\"]", "1970-01-01T01:01:01Z"]
    simp only [List.cons.injEq, and_true]
    exact ⟨by decide, by decide, by decide, by decide,
      congrArg (fun s => s ++ toString p) (by decide),
      congrArg (fun s => s ++ toString m) (by decide),
      by decide, by decide⟩,
    by decide⟩

/-- Witness for C10 at concrete alternative port values. -/
theorem ports_from_map_and_field_witness :
    renderFields { fixtureTablet with portMap := [("vt", 40)], mysqlPort := 41 } =
      ["cell1-0000000001", "test_keyspace", "<null>", "primary",
        "localhost:" ++ toString 40, "localhost:" ++ toString 41,
        "[tag: \"value\"]", "1970-01-01T01:01:01Z"] :=
  ports_from_map_and_field.2.2.2.1 40 41

end Vtctl
